import Mathlib

/-!
Verification development for the Matcha Restock Tracker repository.

The repository contains two parallel implementations of the stock-status
detection and polling engine:
  * a Node server engine: src/src/services/StockChecker.js together with
    src/src/services/database.js (SQLite persistence), modelled below in
    namespaces StockChecker and Database;
  * a React Native app engine: src/MatchaApp/services/MatchaStockService.ts
    together with src/MatchaApp/services/ProductStorage.ts, modelled below in
    namespaces MatchaStockService and ProductStorage.

Statuses and confidence levels are kept as the string literals the source
uses. Network fetches are inputs of the model (a fetch outcome value);
storage operations are modelled as total functions on an explicit store.
-/

namespace Matcha

/-- Substring test: includes text pat is true when pat occurs contiguously in
text. This models the JavaScript call text.includes(pat). -/
def includes (text pat : String) : Bool :=
  text.data.tails.any (fun t => List.isPrefixOf pat.data t)

/-- Lower-casing of a page, modelling the JavaScript toLowerCase call. -/
def lowerStr (s : String) : String :=
  String.mk (s.data.map Char.toLower)

/-- Result value of the heuristic classifier, as in both implementations:
a verdict, a confidence string (low, medium or high) and evidence phrases. -/
structure StockAnalysis where
  isInStock : Bool
  confidence : String
  detectedPhrases : List String
deriving DecidableEq, Repr

/-- First phrase of the list that occurs in the text, if any. This models the
for loops of both analyzers, which return on the first phrase found. -/
def scanPhrases (phrases : List String) (text : String) : Option String :=
  phrases.find? (fun p => includes text p)

/-- Scans a character list for an occurrence of the symbol sym immediately
followed by a decimal digit. This is exactly the condition under which the
currency regular expressions of both implementations have a match. -/
def symDigitHit (sym : Char) : List Char → Bool
  | [] => false
  | [_] => false
  | a :: b :: rest => (a = sym && b.isDigit) || symDigitHit sym (b :: rest)

/-- Longest leading run of decimal digits, with the rest of the list. -/
def digitRun : List Char → List Char × List Char
  | [] => ([], [])
  | c :: cs =>
    if c.isDigit then
      let r := digitRun cs
      (c :: r.1, r.2)
    else ([], c :: cs)

/-- Lexeme matched by the combined currency regular expression of
MatchaStockService at a position where sym is followed by the list cs:
for the dollar symbol the pattern takes the digits, an optional dot and
further digits; for the other symbols it takes only the digits. Returns none
when no digit follows. -/
def priceLexeme (sym : Char) (cs : List Char) : Option (List Char) :=
  match cs with
  | [] => none
  | c :: _ =>
    if c.isDigit then
      let r := digitRun cs
      if sym = '$' then
        match r.2 with
        | '.' :: rest2 => some (sym :: r.1 ++ '.' :: (digitRun rest2).1)
        | _ => some (sym :: r.1)
      else some (sym :: r.1)
    else none

/-- Leftmost currency match in a character list, for the symbols of the
MatchaStockService price regular expression. -/
def firstPriceAux : List Char → Option (List Char)
  | [] => none
  | c :: cs =>
    if c = '$' || c = '¥' || c = '€' || c = '£' then
      match priceLexeme c cs with
      | some m => some m
      | none => firstPriceAux cs
    else firstPriceAux cs

/-- Leftmost currency match of the MatchaStockService price regular
expression, as a string, modelling html.match(priceRegex) picking index 0. -/
def firstPrice (html : String) : Option String :=
  (firstPriceAux html.data).map (fun l => String.mk l)

namespace StockChecker

/-- High-confidence out-of-stock phrases of StockChecker.js, in source order,
including the duplicated sold out entry. -/
def outOfStockPhrasesHigh : List String :=
  ["out of stock", "sold out", "currently unavailable",
   "temporarily out of stock", "item is currently sold out",
   "this item is out of stock", "notify when available",
   "email when available", "join waitlist", "add to waitlist",
   "在庫切れ", "sold out"]

/-- Medium-confidence out-of-stock phrases of StockChecker.js. -/
def outOfStockPhrasesMedium : List String :=
  ["unavailable", "not available", "temporarily unavailable",
   "out-of-stock", "soldout", "no longer available",
   "currently not available", "notify me when available",
   "back in stock soon", "coming soon"]

/-- High-confidence in-stock phrases of StockChecker.js. -/
def inStockPhrasesHigh : List String :=
  ["add to cart", "add to bag", "buy now", "purchase now",
   "order now", "in stock", "available now", "ready to ship",
   "ships today", "add to basket"]

/-- Medium-confidence in-stock phrases of StockChecker.js. -/
def inStockPhrasesMedium : List String :=
  ["available", "buy it now", "shop now", "get it now",
   "add item", "select options", "choose options", "quick add"]

/-- Price-indicator test of StockChecker.js: the four currency regular
expressions tested against the raw html, any match counting. Each pattern has
a match exactly when its symbol occurs immediately followed by a digit. -/
def hasPriceIndicator (html : String) : Bool :=
  symDigitHit '$' html.data || symDigitHit '¥' html.data ||
  symDigitHit '€' html.data || symDigitHit '£' html.data

/-- Classifier of StockChecker.js (analyzeStockStatus). The source extracts
text from html with cheerio and lower-cases it; that extraction is not
re-implemented here, so the extracted lower-cased text is an explicit input.
The three cheerio form-element queries (submit button, add-to-cart class or
id) are likewise abstracted into the boolean input cartDom. The url argument
is unused, as in the source. Scan order is the source order: all out-of-stock
tiers (high then medium) before any in-stock tier, then the structural
price and form fallback, then the default. -/
def analyzeStockStatus (html _url text : String) (cartDom : Bool) : StockAnalysis :=
  match scanPhrases outOfStockPhrasesHigh text with
  | some p => ⟨false, "high", [p]⟩
  | none =>
    match scanPhrases outOfStockPhrasesMedium text with
    | some p => ⟨false, "medium", [p]⟩
    | none =>
      match scanPhrases inStockPhrasesHigh text with
      | some p => ⟨true, "high", [p]⟩
      | none =>
        match scanPhrases inStockPhrasesMedium text with
        | some p => ⟨true, "medium", [p]⟩
        | none =>
          let phrases1 : List String :=
            if hasPriceIndicator html then ["price found"] else []
          let phrases2 : List String :=
            if cartDom then phrases1 ++ ["cart button found"] else phrases1
          if hasPriceIndicator html || cartDom then ⟨true, "medium", phrases2⟩
          else ⟨false, "low", ["no indicators found"]⟩

end StockChecker

namespace MatchaStockService

/-- High-confidence out-of-stock phrases of MatchaStockService.ts, in source
order. -/
def outOfStockHighConf : List String :=
  ["out of stock", "sold out", "currently unavailable", "not available",
   "temporarily out of stock", "notify when available", "email when available",
   "join waitlist", "add to waitlist", "back in stock notification",
   "no longer available", "discontinued", "notify me when available",
   "out-of-stock", "soldout"]

/-- High-confidence in-stock phrases of MatchaStockService.ts. -/
def inStockHighConf : List String :=
  ["add to cart", "add to bag", "buy now", "purchase now",
   "in stock", "available now", "ready to ship", "ships today",
   "add item", "buy it now", "order now", "add to basket",
   "shop now", "purchase", "buy", "cart"]

/-- Medium-confidence out-of-stock phrases of MatchaStockService.ts. -/
def outOfStockMedConf : List String :=
  ["unavailable", "coming soon", "pre-order", "backorder"]

/-- Medium-confidence in-stock phrases of MatchaStockService.ts. -/
def inStockMedConf : List String :=
  ["available", "select options", "choose size", "select quantity"]

/-- Ippodo site-specific check of analyzeStockStatus: some result when a
retailer phrase fires, none when control falls through to the next block. -/
def ippodoCheck (text url : String) : Option StockAnalysis :=
  if includes url "ippodo-tea.co.jp" || includes url "ippodotea.com" then
    if includes text "sold out" || includes text "完売" || includes text "品切れ" then
      some ⟨false, "high", ["ippodo sold out"]⟩
    else if includes text "add to cart" || includes text "カートに入れる" || includes text "cart" then
      some ⟨true, "high", ["ippodo add to cart"]⟩
    else none
  else none

/-- Amazon site-specific check of analyzeStockStatus. -/
def amazonCheck (text url : String) : Option StockAnalysis :=
  if includes url "amazon." then
    if includes text "currently unavailable" || includes text "out of stock" ||
        includes text "temporarily out of stock" then
      some ⟨false, "high", ["amazon out of stock"]⟩
    else if includes text "add to cart" || includes text "buy now" ||
        includes text "add to basket" then
      some ⟨true, "high", ["amazon add to cart"]⟩
    else none
  else none

/-- Encha site-specific check of analyzeStockStatus. -/
def enchaCheck (text url : String) : Option StockAnalysis :=
  if includes url "encha.com" then
    if includes text "sold out" || includes text "notify me when available" then
      some ⟨false, "high", ["encha sold out"]⟩
    else if includes text "add to cart" then
      some ⟨true, "high", ["encha add to cart"]⟩
    else none
  else none

/-- Structural tail of analyzeStockStatus: price-based detection on the raw
html, then the quantity-form check on the lower-cased text, then the
conservative default when no evidence at all was collected. -/
def structuralFallback (html text : String) : StockAnalysis :=
  let phrases1 : List String :=
    match firstPrice html with
    | some pr => [String.append "price found: " pr]
    | none => []
  let formHit : Bool :=
    includes text "<form" && (includes text "quantity" || includes text "qty")
  let phrases2 : List String :=
    if formHit then phrases1 ++ ["quantity form found"] else phrases1
  if phrases2.isEmpty then ⟨false, "low", ["no clear indicators"]⟩
  else ⟨(firstPrice html).isSome || formHit, "medium", phrases2⟩

/-- Classifier of MatchaStockService.ts (analyzeStockStatus). The text is the
lower-cased html; the site-specific blocks run first in source order
(Ippodo, Amazon, Encha), then the generic tiers in the order high negative,
high positive, medium negative, medium positive, then the structural
fallback and the default. -/
def analyzeStockStatus (html url : String) : StockAnalysis :=
  let text := lowerStr html
  match ippodoCheck text url with
  | some r => r
  | none =>
    match amazonCheck text url with
    | some r => r
    | none =>
      match enchaCheck text url with
      | some r => r
      | none =>
        match scanPhrases outOfStockHighConf text with
        | some p => ⟨false, "high", [p]⟩
        | none =>
          match scanPhrases inStockHighConf text with
          | some p => ⟨true, "high", [p]⟩
          | none =>
            match scanPhrases outOfStockMedConf text with
            | some p => ⟨false, "medium", [p]⟩
            | none =>
              match scanPhrases inStockMedConf text with
              | some p => ⟨true, "medium", [p]⟩
              | none => structuralFallback html text

end MatchaStockService

/-- Outcome of one fetch pipeline: either html content, or the error carried
by a failed or throwing fetch. For StockChecker.js this is the success flag
object of checkWithPuppeteer and checkWithAxios; for MatchaStockService.ts a
failure models fetchWithProxyFallback throwing after all proxies fail, and
more generally any exception raised inside the try block mid-check. -/
inductive FetchResult where
  | success (html : String)
  | failure (error : String)
deriving DecidableEq, Repr

namespace ProductStorage

/-- Product record of ProductStorage.ts. -/
structure Product where
  id : String
  name : String
  brand : String
  url : String
  status : String
  createdAt : String
  lastChecked : Option String
  confidence : Option String
  detectedPhrases : Option (List String)
deriving DecidableEq, Repr

/-- Store write used by checkSingleProduct: findIndex on the id, assignment
at that index and saveProducts when found, no write when the id is absent.
Written as replacement of the first id match in the list. -/
def saveAt : List Product → Product → List Product
  | [], _ => []
  | q :: rest, p => if q.id = p.id then p :: rest else q :: saveAt rest p

/-- First product of the list with the given id, as findIndex selects it. -/
def lookup : List Product → String → Option Product
  | [], _ => none
  | q :: rest, id => if q.id = id then some q else lookup rest id

end ProductStorage

namespace MatchaStockService

open ProductStorage

/-- Output of one checkSingleProduct call: the store after the call, the
product value the call returns, and the products for which a restock
notification was scheduled during the call. -/
structure CheckOutcome where
  store : List Product
  result : Product
  notified : List Product
deriving DecidableEq, Repr

/-- Check lifecycle of MatchaStockService.checkSingleProduct. The previous
status is read from the product argument; the product is first saved with
status checking, then the fetch outcome decides between the classification
path and the catch path; the restock notification fires exactly when the
previous status was out-of-stock and the new status is in-stock. The now
argument stands for the toISOString timestamps taken during the call. -/
def checkSingleProduct (ps : List Product) (product : Product)
    (fetch : FetchResult) (now : String) : CheckOutcome :=
  let previousStatus := product.status
  let updatedProduct : Product :=
    { product with status := "checking", lastChecked := some now }
  let ps1 := saveAt ps updatedProduct
  match fetch with
  | .success html =>
    let sa := analyzeStockStatus html product.url
    let finalProduct : Product :=
      { product with
        status := if sa.isInStock then "in-stock" else "out-of-stock",
        lastChecked := some now,
        confidence := some sa.confidence,
        detectedPhrases := some sa.detectedPhrases }
    let notified : List Product :=
      if previousStatus = "out-of-stock" ∧ finalProduct.status = "in-stock" then
        [finalProduct]
      else []
    ⟨saveAt ps1 finalProduct, finalProduct, notified⟩
  | .failure error =>
    let errorProduct : Product :=
      { product with
        status := "error",
        lastChecked := some now,
        detectedPhrases := some [String.append "Error: " error] }
    ⟨saveAt ps1 errorProduct, errorProduct, []⟩

/-- Scheduler state of MatchaStockService: the product store and the static
isChecking guard flag. -/
structure ServiceState where
  store : List Product
  isChecking : Bool
deriving DecidableEq, Repr

/-- Sequential sweep body of checkAllProducts: iterates over the snapshot of
products taken at sweep start, threading the evolving store through the
individual checks. The fetch oracle gives the outcome of the proxy fetch for
each product id. -/
def sweepProducts (store : List Product) (snapshot : List Product)
    (fetch : String → FetchResult) (now : String) : List Product :=
  match snapshot with
  | [] => store
  | p :: rest =>
    sweepProducts (checkSingleProduct store p (fetch p.id) now).store rest fetch now

/-- MatchaStockService.checkAllProducts: returns immediately when the
isChecking guard is set; otherwise runs the sweep over the product snapshot
and clears the guard at the end. -/
def checkAllProducts (st : ServiceState) (fetch : String → FetchResult)
    (now : String) : ServiceState :=
  if st.isChecking then st
  else ⟨sweepProducts st.store st.store fetch now, false⟩

end MatchaStockService

namespace Database

/-- Row of the products table of database.js, after the JSON parse that
getAllProducts and getProduct apply to detected_phrases. -/
structure DBProduct where
  id : Nat
  name : String
  brand : String
  url : String
  status : String
  confidence : Option String
  detected_phrases : List String
  last_checked : Option String
  created_at : String
deriving DecidableEq, Repr

/-- Row of the stock_checks table of database.js. -/
structure StockCheck where
  product_id : Nat
  status : String
  confidence : String
  detected_phrases : List String
  checked_at : String
deriving DecidableEq, Repr

/-- Database state: the two tables used by the engine. -/
structure DB where
  products : List DBProduct
  stock_checks : List StockCheck
deriving DecidableEq, Repr

/-- Partial updates object passed to Database.updateProduct, over the product
columns the application passes. A none field is absent from the object. -/
structure ProductUpdates where
  name : Option String := none
  brand : Option String := none
  url : Option String := none
  status : Option String := none
  confidence : Option String := none
  detected_phrases : Option (List String) := none
deriving DecidableEq, Repr

/-- Application of one updates object to one row. The generated SQL always
appends the assignment of last_checked to CURRENT_TIMESTAMP after the
requested fields, so last_checked is overwritten on every update. -/
def applyUpdates (now : String) (u : ProductUpdates) (p : DBProduct) : DBProduct :=
  { p with
    name := u.name.getD p.name,
    brand := u.brand.getD p.brand,
    url := u.url.getD p.url,
    status := u.status.getD p.status,
    confidence := match u.confidence with
      | some v => some v
      | none => p.confidence,
    detected_phrases := u.detected_phrases.getD p.detected_phrases,
    last_checked := some now }

/-- Database.updateProduct: updates the rows whose id matches. -/
def updateProduct (now : String) (id : Nat) (u : ProductUpdates) (db : DB) : DB :=
  { db with
    products := db.products.map (fun p => if p.id = id then applyUpdates now u p else p) }

/-- Database.addStockCheck: inserts one row into stock_checks. -/
def addStockCheck (now : String) (productId : Nat) (status confidence : String)
    (detectedPhrases : List String) (db : DB) : DB :=
  { db with
    stock_checks := db.stock_checks ++ [⟨productId, status, confidence, detectedPhrases, now⟩] }

/-- First row with the given id, as Database.getProduct selects it. -/
def lookupRow : List DBProduct → Nat → Option DBProduct
  | [], _ => none
  | q :: rest, id => if q.id = id then some q else lookupRow rest id

/-- Database.getProduct restricted to the row fields the checker reads. -/
def getProduct (db : DB) (id : Nat) : Option DBProduct :=
  lookupRow db.products id

end Database

namespace StockChecker

open Database

/-- Value returned by checkProduct: the success object carrying the
classification, or the failure object carrying the error message. -/
inductive CheckResult where
  | ok (isInStock : Bool) (confidence : String) (detectedPhrases : List String)
  | err (error : String)
deriving DecidableEq, Repr

/-- Output of one checkProduct call: the database afterwards, the returned
value, and the restock notifications emitted during the call. The function
body of checkProduct contains no notification call (the NotificationService
of the server is never invoked from the check path), so the emission list is
always empty. -/
structure CheckOutcome where
  db : DB
  result : CheckResult
  notified : List Nat
deriving DecidableEq, Repr

/-- Check lifecycle of StockChecker.checkProduct. A missing product raises
and is handled by the catch block, which writes status error (touching no
row, since the id is absent) and returns the failure object. Otherwise the
status is set to checking, puppeteer is tried and axios is the fallback; on
fetch success the page is classified and the product row plus one stock
check row are written; on failure of both channels, or any exception routed
to the catch block, only the status is set to error. The textOf and cartDomOf
oracles abstract the cheerio text extraction and the cheerio form-element
queries that analyzeStockStatus applies to the fetched html. -/
def checkProduct (db : DB) (productId : Nat) (pup ax : FetchResult)
    (textOf : String → String) (cartDomOf : String → Bool) (now : String) : CheckOutcome :=
  match getProduct db productId with
  | none =>
    ⟨updateProduct now productId { status := some "error" } db,
     .err "Product not found", []⟩
  | some product =>
    let db1 := updateProduct now productId { status := some "checking" } db
    let result := match pup with
      | .success h => FetchResult.success h
      | .failure _ => ax
    match result with
    | .success html =>
      let sa := analyzeStockStatus html product.url (textOf html) (cartDomOf html)
      let newStatus := if sa.isInStock then "in-stock" else "out-of-stock"
      let db2 := updateProduct now productId
        { status := some newStatus,
          confidence := some sa.confidence,
          detected_phrases := some sa.detectedPhrases } db1
      let db3 := addStockCheck now productId newStatus sa.confidence sa.detectedPhrases db2
      ⟨db3, .ok sa.isInStock sa.confidence sa.detectedPhrases, []⟩
    | .failure error =>
      ⟨updateProduct now productId { status := some "error" } db1, .err error, []⟩

/-- Scheduler state of StockChecker: the database and the isChecking guard
flag of the instance. -/
structure CheckerState where
  db : DB
  isChecking : Bool
deriving DecidableEq, Repr

/-- Sequential sweep body of checkAllProducts: iterates over the ids of the
product list fetched at sweep start. The fetch oracle gives the puppeteer and
axios outcomes per product id. -/
def sweepIds (db : DB) (ids : List Nat) (fetch : Nat → FetchResult × FetchResult)
    (textOf : String → String) (cartDomOf : String → Bool) (now : String) : DB :=
  match ids with
  | [] => db
  | id :: rest =>
    sweepIds (checkProduct db id (fetch id).1 (fetch id).2 textOf cartDomOf now).db
      rest fetch textOf cartDomOf now

/-- StockChecker.checkAllProducts: returns immediately when the isChecking
guard is set; otherwise sweeps all products sequentially and clears the
guard after the loop, on every exit path. -/
def checkAllProducts (st : CheckerState) (fetch : Nat → FetchResult × FetchResult)
    (textOf : String → String) (cartDomOf : String → Bool) (now : String) : CheckerState :=
  if st.isChecking then st
  else
    ⟨sweepIds st.db (st.db.products.map (fun p => p.id)) fetch textOf cartDomOf now,
     false⟩

end StockChecker

/-- Terminal product statuses of the check lifecycle. -/
def terminalStatuses : List String := ["in-stock", "out-of-stock", "error"]

namespace Database

theorem updateProduct_stock_checks (now : String) (id : Nat) (u : ProductUpdates)
    (db : DB) : (updateProduct now id u db).stock_checks = db.stock_checks := rfl

theorem addStockCheck_products (now : String) (productId : Nat) (status confidence : String)
    (detectedPhrases : List String) (db : DB) :
    (addStockCheck now productId status confidence detectedPhrases db).products =
      db.products := rfl

theorem status_of_mem_update {now : String} {id : Nat} {u : ProductUpdates} {db : DB}
    {q : DBProduct} {s : String} (hs : u.status = some s)
    (hq : q ∈ (updateProduct now id u db).products) (hid : q.id = id) :
    q.status = s := by
  simp only [updateProduct] at hq
  rcases List.mem_map.1 hq with ⟨p, hp, rfl⟩
  by_cases h : p.id = id
  · simp [h, applyUpdates, hs]
  · simp only [if_neg h] at hid ⊢
    exact absurd hid h

theorem last_checked_of_mem_update {now : String} {id : Nat} {u : ProductUpdates}
    {db : DB} {q : DBProduct} (hq : q ∈ (updateProduct now id u db).products)
    (hid : q.id = id) : q.last_checked = some now := by
  simp only [updateProduct] at hq
  rcases List.mem_map.1 hq with ⟨p, hp, rfl⟩
  by_cases h : p.id = id
  · simp [h, applyUpdates]
  · simp only [if_neg h] at hid ⊢
    exact absurd hid h

end Database

namespace ProductStorage

theorem lookup_saveAt_self (ps : List Product) (p : Product) :
    lookup (saveAt ps p) p.id = if (lookup ps p.id).isSome then some p else none := by
  induction ps with
  | nil => simp [saveAt, lookup]
  | cons q rest ih =>
    by_cases h : q.id = p.id
    · simp [saveAt, lookup, h]
    · simp [saveAt, lookup, h, ih]

theorem lookup_double_save (ps : List Product) (u f : Product) (q : Product)
    (hq : lookup (saveAt (saveAt ps u) f) f.id = some q) (hu : u.id = f.id) :
    q = f := by
  have h1 := lookup_saveAt_self ps u
  rw [hu] at h1
  have h2 := lookup_saveAt_self (saveAt ps u) f
  rw [h1] at h2
  cases hps : (lookup ps f.id).isSome with
  | true =>
    simp only [hps, if_true, Option.isSome_some, if_pos] at h2
    rw [h2] at hq
    exact (Option.some.injEq _ _ ▸ hq).symm
  | false =>
    simp only [hps, if_false, Option.isSome_none, Bool.false_eq_true] at h2
    rw [h2] at hq
    exact absurd hq (by simp)

end ProductStorage

/-! Sample values used by closed witness and counterexample theorems. -/

/-- Sample stored app product that is out of stock. -/
def sampleProduct : ProductStorage.Product :=
  ⟨"1", "Ummon", "Ippodo", "https://example.com/a", "out-of-stock",
   "2024-01-01", none, none, none⟩

/-- Sample database row that is out of stock. -/
def sampleRow : Database.DBProduct :=
  ⟨1, "Ummon", "Ippodo", "https://example.com/a", "out-of-stock",
   none, [], none, "2024-01-01"⟩

/-- Sample database holding only sampleRow, with empty check history. -/
def sampleDB : Database.DB := ⟨[sampleRow], []⟩

/-- The sample row after a failed check at timestamp T1. -/
def sampleRowError : Database.DBProduct :=
  ⟨1, "Ummon", "Ippodo", "https://example.com/a", "error",
   none, [], some "T1", "2024-01-01"⟩

/-- The sample app product after a failed check at timestamp T1. -/
def sampleProductError : ProductStorage.Product :=
  ⟨"1", "Ummon", "Ippodo", "https://example.com/a", "error",
   "2024-01-01", some "T1", none, some ["Error: All proxy services failed"]⟩

/-- Claim C1: for every product and every outcome of a completed
checkProduct or checkSingleProduct call, the stored status afterwards is one
of in-stock, out-of-stock, error; it is never left as checking, and the
modelled calls are total, so no exception escapes leaving the status stuck
at checking. -/
theorem check_status_terminal :
    (∀ db productId pup ax textOf cartDomOf now p q,
        Database.getProduct db productId = some p →
        q ∈ (StockChecker.checkProduct db productId pup ax textOf cartDomOf now).db.products →
        q.id = productId →
        q.status ∈ terminalStatuses) ∧
    (∀ ps product fetch now q,
        ProductStorage.lookup
            (MatchaStockService.checkSingleProduct ps product fetch now).store
            product.id = some q →
        q.status ∈ terminalStatuses) := by
  constructor
  · intro db productId pup ax textOf cartDomOf now p q hget hq hid
    simp only [StockChecker.checkProduct, hget] at hq
    cases pup with
    | success h =>
      rw [Database.addStockCheck_products] at hq
      have hstat := Database.status_of_mem_update rfl hq hid
      rw [hstat]
      cases (StockChecker.analyzeStockStatus h p.url (textOf h) (cartDomOf h)).isInStock <;>
        simp [terminalStatuses]
    | failure e1 =>
      cases ax with
      | success h =>
        rw [Database.addStockCheck_products] at hq
        have hstat := Database.status_of_mem_update rfl hq hid
        rw [hstat]
        cases (StockChecker.analyzeStockStatus h p.url (textOf h) (cartDomOf h)).isInStock <;>
          simp [terminalStatuses]
      | failure e2 =>
        have hstat := Database.status_of_mem_update rfl hq hid
        rw [hstat]
        simp [terminalStatuses]
  · intro ps product fetch now q hq
    cases fetch with
    | success html =>
      simp only [MatchaStockService.checkSingleProduct] at hq
      have hqf := ProductStorage.lookup_double_save ps _ _ q hq rfl
      rw [hqf]
      cases (MatchaStockService.analyzeStockStatus html product.url).isInStock <;>
        simp [terminalStatuses]
    | failure error =>
      simp only [MatchaStockService.checkSingleProduct] at hq
      have hqf := ProductStorage.lookup_double_save ps _ _ q hq rfl
      rw [hqf]
      simp [terminalStatuses]

/-- Witness for C1 at concrete inputs: both orchestrators applied to the
sample store with failing fetches leave the stored status terminal. -/
theorem check_status_terminal_witness :
    (Database.getProduct sampleDB 1 = some sampleRow ∧
      sampleRowError ∈
        (StockChecker.checkProduct sampleDB 1 (.failure "nav timeout")
          (.failure "timeout of 15000ms exceeded") (fun s => s) (fun _ => false)
          "T1").db.products ∧
      sampleRowError.status ∈ terminalStatuses) ∧
    (ProductStorage.lookup
        (MatchaStockService.checkSingleProduct [sampleProduct] sampleProduct
          (.failure "All proxy services failed") "T1").store "1" =
        some sampleProductError ∧
      sampleProductError.status ∈ terminalStatuses) :=
  ⟨⟨by decide, by decide,
    check_status_terminal.1 sampleDB 1 (.failure "nav timeout")
      (.failure "timeout of 15000ms exceeded") (fun s => s) (fun _ => false) "T1"
      sampleRow sampleRowError (by decide) (by decide) (by decide)⟩,
   ⟨by decide,
    check_status_terminal.2 [sampleProduct] sampleProduct
      (.failure "All proxy services failed") "T1" sampleProductError (by decide)⟩⟩

/-- Claim C2, counterexample: the server orchestrator StockChecker.checkProduct
contains no notification call at all, so a check that moves the sample
product from out-of-stock to in-stock emits no restock notification, against
the if direction of the claim. -/
theorem restock_notification_counterexample :
    sampleRow.status = "out-of-stock" ∧
    (StockChecker.checkProduct sampleDB 1 (.success "in stock") (.failure "x")
        (fun s => s) (fun _ => false) "T1").db.products.map
          (fun p => p.status) = ["in-stock"] ∧
    (StockChecker.checkProduct sampleDB 1 (.success "in stock") (.failure "x")
        (fun s => s) (fun _ => false) "T1").notified = [] := by
  refine ⟨by decide, by decide, ?_⟩
  rfl

/-- Claim C2 as amended: in the app orchestrator
MatchaStockService.checkSingleProduct, a restock notification is scheduled
if and only if the status recorded before the check was out-of-stock and the
new status computed by the check is in-stock; transitions from checking,
error or a fresh baseline, checks that stay out of stock, and failed checks
never fire. -/
theorem restock_notification_iff :
    ∀ ps product fetch now,
      (MatchaStockService.checkSingleProduct ps product fetch now).notified ≠ [] ↔
      (product.status = "out-of-stock" ∧
        (MatchaStockService.checkSingleProduct ps product fetch now).result.status =
          "in-stock") := by
  intro ps product fetch now
  cases fetch with
  | failure error =>
    simp only [MatchaStockService.checkSingleProduct, ne_eq, not_true_eq_false,
      false_iff, not_and]
    intro _
    decide
  | success html =>
    simp only [MatchaStockService.checkSingleProduct]
    cases hb : (MatchaStockService.analyzeStockStatus html product.url).isInStock with
    | true =>
      by_cases hs : product.status = "out-of-stock" <;> simp [hb, hs]
    | false =>
      by_cases hs : product.status = "out-of-stock" <;> simp [hb, hs]

/-- Claim C3, counterexample: on the app classifier a text containing both
the high-confidence negative phrase sold out and the high-confidence
positive phrase add to cart is classified in stock when the url matches the
Amazon site override, because the Amazon block runs before the generic tiers
and its positive phrase set matches first. -/
theorem negative_priority_counterexample :
    "sold out" ∈ MatchaStockService.outOfStockHighConf ∧
    includes (lowerStr "sold out add to cart") "sold out" = true ∧
    "add to cart" ∈ MatchaStockService.inStockHighConf ∧
    includes (lowerStr "sold out add to cart") "add to cart" = true ∧
    MatchaStockService.analyzeStockStatus "sold out add to cart"
        "https://amazon.com/matcha" =
      ⟨true, "high", ["amazon add to cart"]⟩ := by
  decide

/-- Claim C3 as amended: when a text contains a high-confidence negative and
a high-confidence positive phrase, the verdict is out of stock: on the
server classifier unconditionally, and on the app classifier provided the
url matches none of the site-specific override patterns. -/
theorem negative_priority_tie :
    (∀ html url text cartDom,
        (∃ p ∈ StockChecker.outOfStockPhrasesHigh, includes text p = true) →
        (∃ q ∈ StockChecker.inStockPhrasesHigh, includes text q = true) →
        (StockChecker.analyzeStockStatus html url text cartDom).isInStock = false) ∧
    (∀ html url,
        includes url "ippodo-tea.co.jp" = false →
        includes url "ippodotea.com" = false →
        includes url "amazon." = false →
        includes url "encha.com" = false →
        (∃ p ∈ MatchaStockService.outOfStockHighConf,
          includes (lowerStr html) p = true) →
        (∃ q ∈ MatchaStockService.inStockHighConf,
          includes (lowerStr html) q = true) →
        (MatchaStockService.analyzeStockStatus html url).isInStock = false) := by
  constructor
  · intro html url text cartDom hneg _
    have hsome : (scanPhrases StockChecker.outOfStockPhrasesHigh text).isSome := by
      rcases hneg with ⟨p, hp, hinc⟩
      exact List.find?_isSome.2 ⟨p, hp, hinc⟩
    rcases Option.isSome_iff_exists.1 hsome with ⟨r, hr⟩
    simp only [StockChecker.analyzeStockStatus]
    rw [hr]
  · intro html url h1 h2 h3 h4 hneg _
    have hip : MatchaStockService.ippodoCheck (lowerStr html) url = none := by
      simp [MatchaStockService.ippodoCheck, h1, h2]
    have ham : MatchaStockService.amazonCheck (lowerStr html) url = none := by
      simp [MatchaStockService.amazonCheck, h3]
    have hen : MatchaStockService.enchaCheck (lowerStr html) url = none := by
      simp [MatchaStockService.enchaCheck, h4]
    have hsome : (scanPhrases MatchaStockService.outOfStockHighConf (lowerStr html)).isSome := by
      rcases hneg with ⟨p, hp, hinc⟩
      exact List.find?_isSome.2 ⟨p, hp, hinc⟩
    rcases Option.isSome_iff_exists.1 hsome with ⟨r, hr⟩
    simp only [MatchaStockService.analyzeStockStatus]
    rw [hip, ham, hen, hr]

/-- Witness for C3 as amended, at a concrete text containing sold out and
add to cart, with a url matching no site override. -/
theorem negative_priority_tie_witness :
    ((∃ p ∈ StockChecker.outOfStockPhrasesHigh,
        includes "sold out add to cart" p = true) ∧
      (∃ q ∈ StockChecker.inStockPhrasesHigh,
        includes "sold out add to cart" q = true) ∧
      (StockChecker.analyzeStockStatus "" "https://example.com/x"
          "sold out add to cart" false).isInStock = false) ∧
    ((∃ p ∈ MatchaStockService.outOfStockHighConf,
        includes (lowerStr "sold out add to cart") p = true) ∧
      (∃ q ∈ MatchaStockService.inStockHighConf,
        includes (lowerStr "sold out add to cart") q = true) ∧
      (MatchaStockService.analyzeStockStatus "sold out add to cart"
          "https://example.com/x").isInStock = false) :=
  ⟨⟨by decide, by decide,
    negative_priority_tie.1 "" "https://example.com/x" "sold out add to cart" false
      (by decide) (by decide)⟩,
   ⟨by decide, by decide,
    negative_priority_tie.2 "sold out add to cart" "https://example.com/x"
      (by decide) (by decide) (by decide) (by decide) (by decide) (by decide)⟩⟩

/-- Claim C4, counterexample: a url that contains amazon. but also matches
the Ippodo pattern, with a text containing currently unavailable and add to
cart, is classified by the Ippodo block, which runs first and fires its
positive phrase, so the result is not the claimed amazon out of stock
verdict. -/
theorem amazon_override_counterexample :
    includes "https://ippodotea.com/amazon.deals" "amazon." = true ∧
    includes (lowerStr "currently unavailable add to cart")
      "currently unavailable" = true ∧
    includes (lowerStr "currently unavailable add to cart") "add to cart" = true ∧
    MatchaStockService.analyzeStockStatus "currently unavailable add to cart"
        "https://ippodotea.com/amazon.deals" =
      ⟨true, "high", ["ippodo add to cart"]⟩ := by
  decide

/-- Claim C4 as amended: for every page text, if the url contains amazon.
and matches neither Ippodo pattern, and the text contains currently
unavailable, the app classifier returns out of stock with high confidence
and evidence exactly amazon out of stock, regardless of any other phrases
such as add to cart. -/
theorem amazon_override_rule :
    ∀ html url,
      includes url "amazon." = true →
      includes url "ippodo-tea.co.jp" = false →
      includes url "ippodotea.com" = false →
      includes (lowerStr html) "currently unavailable" = true →
      MatchaStockService.analyzeStockStatus html url =
        ⟨false, "high", ["amazon out of stock"]⟩ := by
  intro html url ham h1 h2 hcu
  have hip : MatchaStockService.ippodoCheck (lowerStr html) url = none := by
    simp [MatchaStockService.ippodoCheck, h1, h2]
  have hama : MatchaStockService.amazonCheck (lowerStr html) url =
      some ⟨false, "high", ["amazon out of stock"]⟩ := by
    simp [MatchaStockService.amazonCheck, ham, hcu]
  simp only [MatchaStockService.analyzeStockStatus]
  rw [hip, hama]

/-- Witness for C4 as amended at a concrete Amazon product page text that
also contains add to cart. -/
theorem amazon_override_rule_witness :
    includes "https://amazon.com/dp/B0" "amazon." = true ∧
    includes (lowerStr "currently unavailable add to cart")
      "currently unavailable" = true ∧
    MatchaStockService.analyzeStockStatus "currently unavailable add to cart"
        "https://amazon.com/dp/B0" =
      ⟨false, "high", ["amazon out of stock"]⟩ :=
  ⟨by decide, by decide,
   amazon_override_rule "currently unavailable add to cart"
     "https://amazon.com/dp/B0" (by decide) (by decide) (by decide) (by decide)⟩

/-- Claim C5, counterexample: the server classifier scans both negative
tiers before any positive tier, so the text unavailable add to cart, which
contains the high-confidence positive phrase add to cart, a medium-tier
negative phrase unavailable and no high-confidence negative phrase, is
classified out of stock with medium confidence, not in stock with high
confidence. -/
theorem tier_order_counterexample :
    "add to cart" ∈ StockChecker.inStockPhrasesHigh ∧
    includes "unavailable add to cart" "add to cart" = true ∧
    "unavailable" ∈ StockChecker.outOfStockPhrasesMedium ∧
    includes "unavailable add to cart" "unavailable" = true ∧
    (∀ p ∈ StockChecker.outOfStockPhrasesHigh,
      includes "unavailable add to cart" p = false) ∧
    StockChecker.analyzeStockStatus "" "https://example.com/x"
        "unavailable add to cart" false =
      ⟨false, "medium", ["unavailable"]⟩ := by
  decide

/-- Claim C5 as amended: the app classifier evaluates the generic tiers in
the order high negative, high positive, medium negative, medium positive,
so with no site override, no high-confidence negative phrase and a
high-confidence positive phrase present the result is in stock with high
confidence even when a medium-tier negative phrase is present; the server
classifier instead scans both negative tiers before any positive tier and
returns out of stock with medium confidence on such texts. -/
theorem tier_order_high_positive :
    (∀ html url,
        includes url "ippodo-tea.co.jp" = false →
        includes url "ippodotea.com" = false →
        includes url "amazon." = false →
        includes url "encha.com" = false →
        (∀ p ∈ MatchaStockService.outOfStockHighConf,
          includes (lowerStr html) p = false) →
        (∃ q ∈ MatchaStockService.inStockHighConf,
          includes (lowerStr html) q = true) →
        (∃ r ∈ MatchaStockService.outOfStockMedConf,
          includes (lowerStr html) r = true) →
        ((MatchaStockService.analyzeStockStatus html url).isInStock = true ∧
          (MatchaStockService.analyzeStockStatus html url).confidence = "high")) ∧
    (∀ html url text cartDom,
        (∀ p ∈ StockChecker.outOfStockPhrasesHigh, includes text p = false) →
        (∃ q ∈ StockChecker.inStockPhrasesHigh, includes text q = true) →
        (∃ r ∈ StockChecker.outOfStockPhrasesMedium, includes text r = true) →
        ((StockChecker.analyzeStockStatus html url text cartDom).isInStock = false ∧
          (StockChecker.analyzeStockStatus html url text cartDom).confidence =
            "medium")) := by
  constructor
  · intro html url h1 h2 h3 h4 hnone hpos _
    have hip : MatchaStockService.ippodoCheck (lowerStr html) url = none := by
      simp [MatchaStockService.ippodoCheck, h1, h2]
    have ham : MatchaStockService.amazonCheck (lowerStr html) url = none := by
      simp [MatchaStockService.amazonCheck, h3]
    have hen : MatchaStockService.enchaCheck (lowerStr html) url = none := by
      simp [MatchaStockService.enchaCheck, h4]
    have hscan : scanPhrases MatchaStockService.outOfStockHighConf (lowerStr html) =
        none := by
      apply List.find?_eq_none.2
      intro x hx
      simp [hnone x hx]
    have hsome : (scanPhrases MatchaStockService.inStockHighConf (lowerStr html)).isSome := by
      rcases hpos with ⟨q, hqm, hinc⟩
      exact List.find?_isSome.2 ⟨q, hqm, hinc⟩
    rcases Option.isSome_iff_exists.1 hsome with ⟨r, hr⟩
    constructor <;>
      (simp only [MatchaStockService.analyzeStockStatus]; rw [hip, ham, hen, hscan, hr])
  · intro html url text cartDom hnone _ hmed
    have hscan : scanPhrases StockChecker.outOfStockPhrasesHigh text = none := by
      apply List.find?_eq_none.2
      intro x hx
      simp [hnone x hx]
    have hsome : (scanPhrases StockChecker.outOfStockPhrasesMedium text).isSome := by
      rcases hmed with ⟨r, hrm, hinc⟩
      exact List.find?_isSome.2 ⟨r, hrm, hinc⟩
    rcases Option.isSome_iff_exists.1 hsome with ⟨r, hr⟩
    constructor <;>
      (simp only [StockChecker.analyzeStockStatus]; rw [hscan, hr])

/-- Witness for C5 as amended at the concrete text unavailable add to cart
with a url matching no site override. -/
theorem tier_order_high_positive_witness :
    ((∀ p ∈ MatchaStockService.outOfStockHighConf,
        includes (lowerStr "unavailable add to cart") p = false) ∧
      (∃ q ∈ MatchaStockService.inStockHighConf,
        includes (lowerStr "unavailable add to cart") q = true) ∧
      (MatchaStockService.analyzeStockStatus "unavailable add to cart"
          "https://example.com/y").isInStock = true ∧
      (MatchaStockService.analyzeStockStatus "unavailable add to cart"
          "https://example.com/y").confidence = "high") ∧
    ((∀ p ∈ StockChecker.outOfStockPhrasesHigh,
        includes "unavailable add to cart" p = false) ∧
      (StockChecker.analyzeStockStatus "" "https://example.com/y"
          "unavailable add to cart" false).isInStock = false ∧
      (StockChecker.analyzeStockStatus "" "https://example.com/y"
          "unavailable add to cart" false).confidence = "medium") :=
  ⟨⟨by decide, by decide,
    (tier_order_high_positive.1 "unavailable add to cart" "https://example.com/y"
      (by decide) (by decide) (by decide) (by decide) (by decide) (by decide)
      (by decide)).1,
    (tier_order_high_positive.1 "unavailable add to cart" "https://example.com/y"
      (by decide) (by decide) (by decide) (by decide) (by decide) (by decide)
      (by decide)).2⟩,
   ⟨by decide,
    (tier_order_high_positive.2 "" "https://example.com/y" "unavailable add to cart"
      false (by decide) (by decide) (by decide)).1,
    (tier_order_high_positive.2 "" "https://example.com/y" "unavailable add to cart"
      false (by decide) (by decide) (by decide)).2⟩⟩

/-- Claim C6, counterexample: on the empty input both classifiers do return
out of stock with low confidence, but the evidence lists are the literals
no indicators found and no clear indicators, not the claimed no indicators. -/
theorem default_low_counterexample :
    StockChecker.analyzeStockStatus "" "https://example.com/x" "" false =
      ⟨false, "low", ["no indicators found"]⟩ ∧
    (StockChecker.analyzeStockStatus "" "https://example.com/x" "" false).detectedPhrases ≠
      ["no indicators"] ∧
    MatchaStockService.analyzeStockStatus "" "https://example.com/x" =
      ⟨false, "low", ["no clear indicators"]⟩ ∧
    (MatchaStockService.analyzeStockStatus "" "https://example.com/x").detectedPhrases ≠
      ["no indicators"] := by
  decide

/-- Claim C6 as amended: a text containing none of the configured phrases,
together with a page having no currency-amount pattern and no cart or
quantity-form markup, classifies as out of stock with low confidence, with
evidence exactly no indicators found on the server classifier and exactly
no clear indicators on the app classifier. -/
theorem default_low_no_indicators :
    (∀ html url text,
        (∀ p ∈ StockChecker.outOfStockPhrasesHigh, includes text p = false) →
        (∀ p ∈ StockChecker.outOfStockPhrasesMedium, includes text p = false) →
        (∀ p ∈ StockChecker.inStockPhrasesHigh, includes text p = false) →
        (∀ p ∈ StockChecker.inStockPhrasesMedium, includes text p = false) →
        StockChecker.hasPriceIndicator html = false →
        StockChecker.analyzeStockStatus html url text false =
          ⟨false, "low", ["no indicators found"]⟩) ∧
    (∀ html url,
        (∀ p ∈ MatchaStockService.outOfStockHighConf,
          includes (lowerStr html) p = false) →
        (∀ p ∈ MatchaStockService.inStockHighConf,
          includes (lowerStr html) p = false) →
        (∀ p ∈ MatchaStockService.outOfStockMedConf,
          includes (lowerStr html) p = false) →
        (∀ p ∈ MatchaStockService.inStockMedConf,
          includes (lowerStr html) p = false) →
        includes (lowerStr html) "完売" = false →
        includes (lowerStr html) "品切れ" = false →
        includes (lowerStr html) "カートに入れる" = false →
        firstPrice html = none →
        (includes (lowerStr html) "<form" &&
          (includes (lowerStr html) "quantity" ||
            includes (lowerStr html) "qty")) = false →
        MatchaStockService.analyzeStockStatus html url =
          ⟨false, "low", ["no clear indicators"]⟩) := by
  constructor
  · intro html url text hoh hom hih him hprice
    have h1 : scanPhrases StockChecker.outOfStockPhrasesHigh text = none :=
      List.find?_eq_none.2 (fun x hx => by simp [hoh x hx])
    have h2 : scanPhrases StockChecker.outOfStockPhrasesMedium text = none :=
      List.find?_eq_none.2 (fun x hx => by simp [hom x hx])
    have h3 : scanPhrases StockChecker.inStockPhrasesHigh text = none :=
      List.find?_eq_none.2 (fun x hx => by simp [hih x hx])
    have h4 : scanPhrases StockChecker.inStockPhrasesMedium text = none :=
      List.find?_eq_none.2 (fun x hx => by simp [him x hx])
    simp only [StockChecker.analyzeStockStatus]
    rw [h1, h2, h3, h4]
    simp [hprice]
  · intro html url hoh hih hom him hjpA hjpB hjpC hprice hform
    have hso := hoh "sold out" (by decide)
    have hcu := hoh "currently unavailable" (by decide)
    have hos := hoh "out of stock" (by decide)
    have hto := hoh "temporarily out of stock" (by decide)
    have hnm := hoh "notify me when available" (by decide)
    have hac := hih "add to cart" (by decide)
    have hbn := hih "buy now" (by decide)
    have hab := hih "add to basket" (by decide)
    have hct := hih "cart" (by decide)
    have hip : MatchaStockService.ippodoCheck (lowerStr html) url = none := by
      simp [MatchaStockService.ippodoCheck, hso, hjpA, hjpB, hac, hjpC, hct]
    have ham : MatchaStockService.amazonCheck (lowerStr html) url = none := by
      simp [MatchaStockService.amazonCheck, hcu, hos, hto, hac, hbn, hab]
    have hen : MatchaStockService.enchaCheck (lowerStr html) url = none := by
      simp [MatchaStockService.enchaCheck, hso, hnm, hac]
    have h1 : scanPhrases MatchaStockService.outOfStockHighConf (lowerStr html) = none :=
      List.find?_eq_none.2 (fun x hx => by simp [hoh x hx])
    have h2 : scanPhrases MatchaStockService.inStockHighConf (lowerStr html) = none :=
      List.find?_eq_none.2 (fun x hx => by simp [hih x hx])
    have h3 : scanPhrases MatchaStockService.outOfStockMedConf (lowerStr html) = none :=
      List.find?_eq_none.2 (fun x hx => by simp [hom x hx])
    have h4 : scanPhrases MatchaStockService.inStockMedConf (lowerStr html) = none :=
      List.find?_eq_none.2 (fun x hx => by simp [him x hx])
    simp only [MatchaStockService.analyzeStockStatus]
    rw [hip, ham, hen, h1, h2, h3, h4]
    simp only [MatchaStockService.structuralFallback, hprice, hform]
    simp

/-- Witness for C6 as amended at the empty page. -/
theorem default_low_no_indicators_witness :
    ((∀ p ∈ StockChecker.outOfStockPhrasesHigh, includes "" p = false) ∧
      StockChecker.hasPriceIndicator "" = false ∧
      StockChecker.analyzeStockStatus "" "https://example.com/z" "" false =
        ⟨false, "low", ["no indicators found"]⟩) ∧
    (firstPrice "" = none ∧
      MatchaStockService.analyzeStockStatus "" "https://example.com/z" =
        ⟨false, "low", ["no clear indicators"]⟩) :=
  ⟨⟨by decide, by decide,
    default_low_no_indicators.1 "" "https://example.com/z" "" (by decide) (by decide)
      (by decide) (by decide) (by decide)⟩,
   ⟨by decide,
    default_low_no_indicators.2 "" "https://example.com/z" (by decide) (by decide)
      (by decide) (by decide) (by decide) (by decide) (by decide) (by decide)
      (by decide)⟩⟩

/-- Claim C7, counterexample: when both fetch channels fail for the sample
product, checkProduct stores status error but appends no CheckRecord at all;
the check history stays empty, against the claimed append of a record with
status error. -/
theorem error_path_record_counterexample :
    Database.getProduct sampleDB 1 = some sampleRow ∧
    (StockChecker.checkProduct sampleDB 1 (.failure "nav timeout")
        (.failure "timeout of 15000ms exceeded") (fun s => s) (fun _ => false)
        "T1").db.stock_checks = [] ∧
    (StockChecker.checkProduct sampleDB 1 (.failure "nav timeout")
        (.failure "timeout of 15000ms exceeded") (fun s => s) (fun _ => false)
        "T1").db.products.map (fun p => p.status) = ["error"] := by
  decide

/-- Claim C7 as amended: when every fetch channel fails, checkProduct
transitions the product to status error, persists that status and returns
the error of the last channel without invoking the classifier and without
appending any CheckRecord; exactly one CheckRecord is appended on the
success path, none on the error path. -/
theorem error_path_no_record :
    (∀ db productId e1 e2 textOf cartDomOf now p,
        Database.getProduct db productId = some p →
        ((StockChecker.checkProduct db productId (.failure e1) (.failure e2)
            textOf cartDomOf now).db.stock_checks = db.stock_checks ∧
          (StockChecker.checkProduct db productId (.failure e1) (.failure e2)
            textOf cartDomOf now).result = .err e2 ∧
          ∀ q ∈ (StockChecker.checkProduct db productId (.failure e1) (.failure e2)
            textOf cartDomOf now).db.products,
            q.id = productId → q.status = "error")) ∧
    (∀ db productId html ax textOf cartDomOf now p,
        Database.getProduct db productId = some p →
        (StockChecker.checkProduct db productId (.success html) ax
            textOf cartDomOf now).db.stock_checks =
          db.stock_checks ++
            [⟨productId,
              if (StockChecker.analyzeStockStatus html p.url (textOf html)
                    (cartDomOf html)).isInStock
              then "in-stock" else "out-of-stock",
              (StockChecker.analyzeStockStatus html p.url (textOf html)
                (cartDomOf html)).confidence,
              (StockChecker.analyzeStockStatus html p.url (textOf html)
                (cartDomOf html)).detectedPhrases,
              now⟩]) := by
  constructor
  · intro db productId e1 e2 textOf cartDomOf now p hget
    refine ⟨?_, ?_, ?_⟩
    · simp only [StockChecker.checkProduct, hget]
      rfl
    · simp only [StockChecker.checkProduct, hget]
    · intro q hq hid
      simp only [StockChecker.checkProduct, hget] at hq
      exact Database.status_of_mem_update rfl hq hid
  · intro db productId html ax textOf cartDomOf now p hget
    simp only [StockChecker.checkProduct, hget]
    rfl

/-- Witness for C7 as amended at the sample database: the failing check
leaves the history unchanged, and a successful check appends exactly one
record. -/
theorem error_path_no_record_witness :
    (Database.getProduct sampleDB 1 = some sampleRow ∧
      (StockChecker.checkProduct sampleDB 1 (.failure "err one") (.failure "err two")
        (fun s => s) (fun _ => false) "T1").db.stock_checks = sampleDB.stock_checks) ∧
    ((StockChecker.checkProduct sampleDB 1 (.success "sold out") (.failure "x")
        (fun s => s) (fun _ => false) "T1").db.stock_checks =
      sampleDB.stock_checks ++ [⟨1, "out-of-stock", "high", ["sold out"], "T1"⟩]) :=
  ⟨⟨by decide,
    (error_path_no_record.1 sampleDB 1 "err one" "err two" (fun s => s)
      (fun _ => false) "T1" sampleRow (by decide)).1⟩,
   by
    have h := error_path_no_record.2 sampleDB 1 "sold out" (.failure "x")
      (fun s => s) (fun _ => false) "T1" sampleRow (by decide)
    rw [h]
    decide⟩

/-- Claim C8: at most one sweep is active at any time. Both schedulers test
the isChecking guard before any work; a sweep-start request arriving while
the guard is set returns at once with the state untouched, checking no
products and writing nothing, so the request is dropped, not queued. -/
theorem sweep_single_flight :
    (∀ st fetch textOf cartDomOf now, st.isChecking = true →
        StockChecker.checkAllProducts st fetch textOf cartDomOf now = st) ∧
    (∀ st fetch now, st.isChecking = true →
        MatchaStockService.checkAllProducts st fetch now = st) := by
  constructor
  · intro st fetch textOf cartDomOf now h
    simp [StockChecker.checkAllProducts, h]
  · intro st fetch now h
    simp [MatchaStockService.checkAllProducts, h]

/-- Witness for C8: a second sweep-start on a state whose guard is set is a
no-op in both schedulers. -/
theorem sweep_single_flight_witness :
    (StockChecker.CheckerState.mk sampleDB true).isChecking = true ∧
    StockChecker.checkAllProducts ⟨sampleDB, true⟩
        (fun _ => (.failure "a", .failure "b")) (fun s => s) (fun _ => false) "T1" =
      ⟨sampleDB, true⟩ ∧
    MatchaStockService.checkAllProducts ⟨[sampleProduct], true⟩
        (fun _ => .failure "a") "T1" =
      ⟨[sampleProduct], true⟩ :=
  ⟨rfl,
   sweep_single_flight.1 ⟨sampleDB, true⟩ (fun _ => (.failure "a", .failure "b"))
     (fun s => s) (fun _ => false) "T1" rfl,
   sweep_single_flight.2 ⟨[sampleProduct], true⟩ (fun _ => .failure "a") "T1" rfl⟩

/-- Second sample row, whose fetch times out in the sweep scenario. -/
def scenarioRowB : Database.DBProduct :=
  ⟨2, "Sayaka", "Marukyu Koyamaen", "https://example.com/b", "checking",
   none, [], none, "2024-01-02"⟩

/-- Third sample row of the sweep scenario. -/
def scenarioRowC : Database.DBProduct :=
  ⟨3, "Wako", "Kettl", "https://example.com/c", "in-stock",
   none, [], none, "2024-01-03"⟩

/-- Database of the three-product sweep scenario. -/
def scenarioDB : Database.DB := ⟨[sampleRow, scenarioRowB, scenarioRowC], []⟩

/-- Fetch oracle of the sweep scenario: the fetch of product 2 times out on
both channels, products 1 and 3 fetch a page reading in stock. -/
def scenarioFetch : Nat → FetchResult × FetchResult :=
  fun id =>
    if id = 2 then (.failure "Navigation timeout of 30000 ms exceeded",
                    .failure "timeout of 15000ms exceeded")
    else (.success "in stock", .success "in stock")

/-- The sweep of the scenario, started with the guard clear. -/
def scenarioSweep : StockChecker.CheckerState :=
  StockChecker.checkAllProducts ⟨scenarioDB, false⟩ scenarioFetch
    (fun s => s) (fun _ => false) "T1"

/-- Claim C9: a sweep always terminates with the guard flag cleared in both
schedulers, and a failure on one product does not abort the rest: in the
three-product scenario where the fetch of product 2 times out on every
channel, products 1 and 3 are still checked and persisted with one check
record each, product 2 ends in status error, and the guard is false after
the sweep completes. -/
theorem sweep_releases_guard :
    (∀ st fetch textOf cartDomOf now, st.isChecking = false →
        (StockChecker.checkAllProducts st fetch textOf cartDomOf now).isChecking =
          false) ∧
    (∀ st fetch now, st.isChecking = false →
        (MatchaStockService.checkAllProducts st fetch now).isChecking = false) ∧
    (scenarioSweep.isChecking = false ∧
      scenarioSweep.db.products.map (fun p => p.status) =
        ["in-stock", "error", "in-stock"] ∧
      scenarioSweep.db.stock_checks.map (fun c => c.product_id) = [1, 3]) := by
  refine ⟨?_, ?_, by decide, by decide, by decide⟩
  · intro st fetch textOf cartDomOf now h
    simp [StockChecker.checkAllProducts, h]
  · intro st fetch now h
    simp [MatchaStockService.checkAllProducts, h]

/-- Witness for C9: the guard-release parts applied to concrete idle
states. -/
theorem sweep_releases_guard_witness :
    (StockChecker.CheckerState.mk sampleDB false).isChecking = false ∧
    (StockChecker.checkAllProducts ⟨sampleDB, false⟩
        (fun _ => (.failure "a", .failure "b")) (fun s => s) (fun _ => false)
        "T1").isChecking = false ∧
    (MatchaStockService.checkAllProducts ⟨[sampleProduct], false⟩
        (fun _ => .failure "a") "T1").isChecking = false :=
  ⟨rfl,
   sweep_releases_guard.1 ⟨sampleDB, false⟩ (fun _ => (.failure "a", .failure "b"))
     (fun s => s) (fun _ => false) "T1" rfl,
   sweep_releases_guard.2.1 ⟨[sampleProduct], false⟩ (fun _ => .failure "a") "T1" rfl⟩

/-- Claim C10: every call to Database.updateProduct overwrites the
last_checked column of the matching row with the current timestamp, no
matter which fields the updates object contains, so even an external edit of
name or brand changes the last-checked time. -/
theorem updateProduct_bumps_last_checked :
    ∀ now id u db q,
      q ∈ (Database.updateProduct now id u db).products → q.id = id →
      q.last_checked = some now := by
  intro now id u db q hq hid
  exact Database.last_checked_of_mem_update hq hid

/-- Witness for C10: an update that only renames the sample product still
overwrites last_checked with the new timestamp. -/
theorem updateProduct_bumps_last_checked_witness :
    (⟨1, "Renamed", "Ippodo", "https://example.com/a", "out-of-stock",
        none, [], some "T2", "2024-01-01"⟩ : Database.DBProduct) ∈
      (Database.updateProduct "T2" 1 { name := some "Renamed" } sampleDB).products ∧
    (⟨1, "Renamed", "Ippodo", "https://example.com/a", "out-of-stock",
        none, [], some "T2", "2024-01-01"⟩ : Database.DBProduct).last_checked =
      some "T2" :=
  ⟨by decide,
   updateProduct_bumps_last_checked "T2" 1 { name := some "Renamed" } sampleDB
     ⟨1, "Renamed", "Ippodo", "https://example.com/a", "out-of-stock",
      none, [], some "T2", "2024-01-01"⟩ (by decide) (by decide)⟩

end Matcha
